import Mathlib

/-!
Verification of the coordinate-calculator module of the GPS repository.

The JavaScript source (coordinate calculator module) is embedded shallowly:

* Unit conversion (`dmsToDecimal`, `decimalToDMS`) and input validation
  (`validateInput`) operate on JavaScript numbers compared against rational
  constants; they are embedded over `ℚ` (every finite IEEE double is a
  rational, and all comparisons in this code are against rational literals,
  so the embedding is exact on finite doubles).  `JVal` adds the JavaScript
  `NaN` value, whose comparisons are all false, as in IEEE arithmetic.
* The geodesic functions (`calculateTargetCoordinate`, `calculateDistance`,
  `calculateBearing`, `estimateError`) are embedded over `ℝ` with exact real
  arithmetic, `Math.atan2` being `Complex.arg` of `x + y*I` (same range
  `(-π, π]`, same value `0` at the origin) and the JavaScript `%` operator
  being `jsMod` (remainder with the sign of the dividend).
-/

/-! ### Definitions translated from the source -/

def EARTH_RADIUS_KM : ℝ := 6371.0

noncomputable def DEG_TO_RAD : ℝ := Real.pi / 180

noncomputable def RAD_TO_DEG : ℝ := 180 / Real.pi

def LAT_MIN : ℚ := -90

def LAT_MAX : ℚ := 90

def LON_MIN : ℚ := -180

def LON_MAX : ℚ := 180

def AZIMUTH_MIN : ℚ := 0

def AZIMUTH_MAX : ℚ := 360

/-- `dmsToDecimal(degrees, minutes, seconds)`: sign taken from `degrees`,
magnitude `|degrees| + minutes/60 + seconds/3600`. -/
def dmsToDecimal (degrees minutes seconds : ℚ) : ℚ :=
  let sign : ℚ := if degrees < 0 then -1 else 1
  let absDegrees := |degrees|
  let decimal := absDegrees + minutes / 60 + seconds / 3600
  sign * decimal

/-- Result record of `decimalToDMS`.  `Math.floor` yields integers, so the
`degrees`/`minutes` fields are integers; `seconds` is a rational. -/
structure DMSAngle where
  degrees : ℤ
  minutes : ℤ
  seconds : ℚ
  deriving DecidableEq, Repr

/-- `x.toFixed(2)` followed by `parseFloat`: round to 2 decimal places.
ECMAScript `toFixed` picks the integer `n` minimising `|n / 10^2 - x|`,
taking the larger `n` on ties, i.e. `⌊100x + 1/2⌋ / 100`. -/
def toFixed2 (x : ℚ) : ℚ := (⌊x * 100 + 1/2⌋ : ℚ) / 100

/-- `decimalToDMS(decimal)` (source lines 76-96).  Note the source rounds the
seconds to two decimals with *no* carry into minutes/degrees. -/
def decimalToDMS (decimal : ℚ) : DMSAngle :=
  let sign : ℤ := if decimal < 0 then -1 else 1
  let absolute := |decimal|
  let degrees := ⌊absolute⌋
  let minutesFloat := (absolute - degrees) * 60
  let minutes := ⌊minutesFloat⌋
  let seconds := (minutesFloat - minutes) * 60
  { degrees := sign * degrees, minutes := minutes, seconds := toFixed2 seconds }

/-- A JavaScript number as it matters to `validateInput`: either `NaN` or a
finite value (a rational).  Comparisons with `NaN` are always false. -/
inductive JVal where
  | nan : JVal
  | num : ℚ → JVal
  deriving DecidableEq, Repr

def JVal.lt : JVal → ℚ → Bool
  | .nan, _ => false
  | .num x, c => decide (x < c)

def JVal.gt : JVal → ℚ → Bool
  | .nan, _ => false
  | .num x, c => decide (c < x)

def JVal.le : JVal → ℚ → Bool
  | .nan, _ => false
  | .num x, c => decide (x ≤ c)

def JVal.isNaN : JVal → Bool
  | .nan => true
  | .num _ => false

/-- Diagnostic for latitude out of range (source line 249). -/
def latMsg : String := "Vĩ độ phải trong khoảng -90° đến 90°"

/-- Diagnostic for longitude out of range (source line 254). -/
def lonMsg : String := "Kinh độ phải trong khoảng -180° đến 180°"

/-- Diagnostic for azimuth out of range (source line 259). -/
def azMsg : String := "Góc azimuth phải trong khoảng 0° đến 360°"

/-- Diagnostic for non-positive distance (source line 264). -/
def distMsg : String := "Khoảng cách phải lớn hơn 0 km"

/-- Accuracy warning for distance over 100 km (source line 269). -/
def warnMsg : String :=
  "Cảnh báo: Khoảng cách lớn (>100km) có thể làm giảm độ chính xác tính toán trên mô hình cầu"

/-- Diagnostic for non-numeric input (source line 274). -/
def nanMsg : String := "Dữ liệu đầu vào không hợp lệ. Vui lòng kiểm tra lại các giá trị"

/-- `validateInput({lat, lon, azimuth, distance})`: returns a diagnostic
string, or `""` when valid (source lines 244-279). -/
def validateInput (lat lon azimuth distance : JVal) : String :=
  if lat.lt LAT_MIN || lat.gt LAT_MAX then latMsg
  else if lon.lt LON_MIN || lon.gt LON_MAX then lonMsg
  else if azimuth.lt AZIMUTH_MIN || azimuth.gt AZIMUTH_MAX then azMsg
  else if distance.le 0 then distMsg
  else if distance.gt 100 then warnMsg
  else if lat.isNaN || lon.isNaN || azimuth.isNaN || distance.isNaN then nanMsg
  else ""

/-- `Math.atan2(y, x)`: the angle of the point `(x, y)` in `(-π, π]`, with
`atan2(0, 0) = 0`, exactly `Complex.arg (x + y·i)`. -/
noncomputable def atan2 (y x : ℝ) : ℝ := Complex.arg ((x : ℂ) + (y : ℂ) * Complex.I)

/-- Truncation toward zero, as JavaScript's `%` uses. -/
noncomputable def jsTrunc (x : ℝ) : ℤ := if 0 ≤ x then ⌊x⌋ else ⌈x⌉

/-- The JavaScript remainder operator `a % b`: `a - b * trunc(a / b)`
(result carries the sign of the dividend). -/
noncomputable def jsMod (a b : ℝ) : ℝ := a - b * (jsTrunc (a / b) : ℝ)

/-- A latitude/longitude pair in decimal degrees. -/
structure GeoPoint where
  lat : ℝ
  lon : ℝ

/-- `calculateTargetCoordinate(lat, lon, azimuthDeg, distanceKm)` (source
lines 121-153): spherical forward (destination-point) solution, with the
longitude normalised by `((lon + 540) % 360) - 180`. -/
noncomputable def calculateTargetCoordinate (lat lon azimuthDeg distanceKm : ℝ) : GeoPoint :=
  let lat1 := lat * DEG_TO_RAD
  let lon1 := lon * DEG_TO_RAD
  let bearing := azimuthDeg * DEG_TO_RAD
  let delta := distanceKm / EARTH_RADIUS_KM
  let lat2 := Real.arcsin
    (Real.sin lat1 * Real.cos delta + Real.cos lat1 * Real.sin delta * Real.cos bearing)
  let lon2 := lon1 + atan2
    (Real.sin bearing * Real.sin delta * Real.cos lat1)
    (Real.cos delta - Real.sin lat1 * Real.sin lat2)
  let targetLat := lat2 * RAD_TO_DEG
  let targetLon := lon2 * RAD_TO_DEG
  { lat := targetLat, lon := jsMod (targetLon + 540) 360 - 180 }

/-- `calculateDistance(lat1, lon1, lat2, lon2)` (source lines 175-194):
haversine great-circle distance in kilometres. -/
noncomputable def calculateDistance (lat1 lon1 lat2 lon2 : ℝ) : ℝ :=
  let φ1 := lat1 * DEG_TO_RAD
  let φ2 := lat2 * DEG_TO_RAD
  let Δφ := (lat2 - lat1) * DEG_TO_RAD
  let Δlon := (lon2 - lon1) * DEG_TO_RAD
  let a := Real.sin (Δφ / 2) * Real.sin (Δφ / 2) +
    Real.cos φ1 * Real.cos φ2 * Real.sin (Δlon / 2) * Real.sin (Δlon / 2)
  let c := 2 * atan2 (Real.sqrt a) (Real.sqrt (1 - a))
  EARTH_RADIUS_KM * c

/-- `calculateBearing(lat1, lon1, lat2, lon2)` (source lines 205-218):
initial bearing from point 1 to point 2, mapped into `[0, 360)` by
`(θ·RAD_TO_DEG + 360) % 360`. -/
noncomputable def calculateBearing (lat1 lon1 lat2 lon2 : ℝ) : ℝ :=
  let φ1 := lat1 * DEG_TO_RAD
  let φ2 := lat2 * DEG_TO_RAD
  let Δlon := (lon2 - lon1) * DEG_TO_RAD
  let y := Real.sin Δlon * Real.cos φ2
  let x := Real.cos φ1 * Real.sin φ2 - Real.sin φ1 * Real.cos φ2 * Real.cos Δlon
  let θ := atan2 y x
  jsMod (θ * RAD_TO_DEG + 360) 360

/-- `estimateError(distanceKm, gpsError, azimuthError, distanceError)`
(source lines 419-434): root-sum-square of the GPS error, the cross-range
error `distanceKm·1000·sin(azimuthErrorRad)` and the distance error. -/
noncomputable def estimateError (distanceKm gpsError azimuthError distanceError : ℝ) : ℝ :=
  let azimuthErrorRad := azimuthError * DEG_TO_RAD
  let azimuthErrorMeters := distanceKm * 1000 * Real.sin azimuthErrorRad
  Real.sqrt (gpsError ^ 2 + azimuthErrorMeters ^ 2 + distanceError ^ 2)

/-- The real value of a `JVal`.  `validateInput` rejects `NaN` inputs before
any computation, so the `nan` case is unreachable in `calculateTarget`. -/
def JVal.toReal : JVal → ℝ
  | .nan => 0
  | .num q => (q : ℝ)

/-- The verification block of a successful calculation (source lines 541-546). -/
structure Verification where
  distance : ℝ
  bearing : ℝ
  distanceError : ℝ
  bearingError : ℝ

/-- The numeric payload of a successful calculation (source lines 505-554);
the purely presentational fields (formatted strings and DMS renderings of
the same numbers) are omitted. -/
structure CalcData where
  observer : GeoPoint
  target : GeoPoint
  azimuth : ℝ
  distance : ℝ
  verification : Verification
  estimatedErrorMeters : ℝ

/-- Result of `calculateTarget`: `{success: false, error}` or
`{success: true, data}`. -/
inductive CalcResult where
  | failure (error : String)
  | success (data : CalcData)

/-- `calculateTarget(input)` (source lines 459-562): validates, then
computes the target, re-derives distance and bearing for verification, and
estimates the error (`estimateError(distance)` uses the source's default
error parameters `10`, `0.5`, `0.5`).  Any non-empty string returned by
`validateInput` — including the `>100 km` accuracy warning — takes the
`{success: false}` branch. -/
noncomputable def calculateTarget (observerLat observerLon azimuth distance : JVal) : CalcResult :=
  let validationError := validateInput observerLat observerLon azimuth distance
  if validationError ≠ "" then .failure validationError
  else
    let lat := observerLat.toReal
    let lon := observerLon.toReal
    let az := azimuth.toReal
    let dist := distance.toReal
    let target := calculateTargetCoordinate lat lon az dist
    let verifyDistance := calculateDistance lat lon target.lat target.lon
    let verifyBearing := calculateBearing lat lon target.lat target.lon
    let estimatedError := estimateError dist 10 (1/2) (1/2)
    .success
      { observer := { lat := lat, lon := lon }
        target := target
        azimuth := az
        distance := dist
        verification :=
          { distance := verifyDistance
            bearing := verifyBearing
            distanceError := |verifyDistance - dist|
            bearingError := |verifyBearing - az| }
        estimatedErrorMeters := estimatedError }

/-! ### Lemmas and claim theorems -/

/-- Rounding to two decimal places moves a value by at most `1/200`. -/
lemma abs_toFixed2_sub_le (s : ℚ) : |toFixed2 s - s| ≤ 1/200 := by
  rw [toFixed2, abs_le]
  have h1 : (⌊s * 100 + 1/2⌋ : ℚ) ≤ s * 100 + 1/2 := Int.floor_le _
  have h2 : s * 100 + 1/2 < (⌊s * 100 + 1/2⌋ : ℚ) + 1 := Int.lt_floor_add_one _
  constructor <;> linarith

/-- Evaluation of `decimalToDMS` on a non-negative in-range DMS value. -/
lemma decimalToDMS_eval_nonneg (n m : ℤ) (s : ℚ) (hn : 0 ≤ n)
    (hm0 : 0 ≤ m) (hm : m < 60) (hs0 : 0 ≤ s) (hs : s < 60) :
    decimalToDMS ((n : ℚ) + (m : ℚ) / 60 + s / 3600) =
      ⟨n, m, toFixed2 s⟩ := by
  have hmq : (m : ℚ) ≤ 59 := by exact_mod_cast Int.lt_add_one_iff.mp hm
  have hmq0 : (0 : ℚ) ≤ (m : ℚ) := by exact_mod_cast hm0
  have hnq : (0 : ℚ) ≤ (n : ℚ) := by exact_mod_cast hn
  have hf0 : (0 : ℚ) ≤ (m : ℚ) / 60 + s / 3600 := by positivity
  have hf1 : (m : ℚ) / 60 + s / 3600 < 1 := by linarith
  have hq0 : (0 : ℚ) ≤ (n : ℚ) + (m : ℚ) / 60 + s / 3600 := by linarith
  have habs : |(n : ℚ) + (m : ℚ) / 60 + s / 3600| = (n : ℚ) + (m : ℚ) / 60 + s / 3600 :=
    abs_of_nonneg hq0
  have hfl : ⌊(n : ℚ) + (m : ℚ) / 60 + s / 3600⌋ = n := by
    rw [add_assoc, Int.floor_int_add]
    have : ⌊(m : ℚ) / 60 + s / 3600⌋ = 0 := Int.floor_eq_zero_iff.mpr ⟨hf0, hf1⟩
    omega
  rw [decimalToDMS]
  simp only [if_neg (not_lt.mpr hq0), habs, hfl]
  have hmf : ((n : ℚ) + (m : ℚ) / 60 + s / 3600 - (n : ℤ)) * 60 = (m : ℚ) + s / 60 := by
    ring
  rw [hmf]
  have hs60 : (0:ℚ) ≤ s / 60 ∧ s / 60 < 1 := ⟨by positivity, by linarith⟩
  have hfl2 : ⌊(m : ℚ) + s / 60⌋ = m := by
    rw [Int.floor_int_add]
    have : ⌊s / 60⌋ = 0 := Int.floor_eq_zero_iff.mpr ⟨hs60.1, hs60.2⟩
    omega
  rw [hfl2]
  have hsec : ((m : ℚ) + s / 60 - (m : ℤ)) * 60 = s := by ring
  rw [hsec, one_mul]

/-- Evaluation of `decimalToDMS` on a negative in-range DMS value. -/
lemma decimalToDMS_eval_neg (n m : ℤ) (s : ℚ) (hn : 1 ≤ n)
    (hm0 : 0 ≤ m) (hm : m < 60) (hs0 : 0 ≤ s) (hs : s < 60) :
    decimalToDMS (-((n : ℚ) + (m : ℚ) / 60 + s / 3600)) =
      ⟨-n, m, toFixed2 s⟩ := by
  have hmq : (m : ℚ) ≤ 59 := by exact_mod_cast Int.lt_add_one_iff.mp hm
  have hmq0 : (0 : ℚ) ≤ (m : ℚ) := by exact_mod_cast hm0
  have hnq : (1 : ℚ) ≤ (n : ℚ) := by exact_mod_cast hn
  have hf0 : (0 : ℚ) ≤ (m : ℚ) / 60 + s / 3600 := by positivity
  have hf1 : (m : ℚ) / 60 + s / 3600 < 1 := by linarith
  have hq0 : (0 : ℚ) < (n : ℚ) + (m : ℚ) / 60 + s / 3600 := by linarith
  have hneg : -((n : ℚ) + (m : ℚ) / 60 + s / 3600) < 0 := by linarith
  have habs : |(-((n : ℚ) + (m : ℚ) / 60 + s / 3600))| =
      (n : ℚ) + (m : ℚ) / 60 + s / 3600 := by
    rw [abs_neg]; exact abs_of_nonneg hq0.le
  have hfl : ⌊(n : ℚ) + (m : ℚ) / 60 + s / 3600⌋ = n := by
    rw [add_assoc, Int.floor_int_add]
    have : ⌊(m : ℚ) / 60 + s / 3600⌋ = 0 := Int.floor_eq_zero_iff.mpr ⟨hf0, hf1⟩
    omega
  rw [decimalToDMS]
  simp only [if_pos hneg, habs, hfl]
  have hmf : ((n : ℚ) + (m : ℚ) / 60 + s / 3600 - (n : ℤ)) * 60 = (m : ℚ) + s / 60 := by
    ring
  rw [hmf]
  have hs60 : (0:ℚ) ≤ s / 60 ∧ s / 60 < 1 := ⟨by positivity, by linarith⟩
  have hfl2 : ⌊(m : ℚ) + s / 60⌋ = m := by
    rw [Int.floor_int_add]
    have : ⌊s / 60⌋ = 0 := Int.floor_eq_zero_iff.mpr ⟨hs60.1, hs60.2⟩
    omega
  rw [hfl2]
  have hsec : ((m : ℚ) + s / 60 - (m : ℤ)) * 60 = s := by ring
  rw [hsec, neg_one_mul]

/-- C2: the claim says `decimalToDMS` never emits `seconds = 60.00`
(rounding must carry into minutes).  The source performs no carry: on input
`899999/900000 ≈ 0.99999889` the fractional seconds are `59.996`, which
`toFixed(2)` rounds up to `60.00`, and the function returns
`0° 59' 60.00"`.  This contradicts the claim (and the source's own
`validateDMS`, which rejects `seconds ≥ 60`). -/
theorem decimalToDMS_emits_sixty_seconds :
    (decimalToDMS (899999/900000)).seconds = 60 ∧
    (decimalToDMS (899999/900000)).minutes = 59 := by
  have h : (899999/900000 : ℚ) = ((0 : ℤ) : ℚ) + ((59 : ℤ) : ℚ) / 60 + (14999/250 : ℚ) / 3600 := by
    norm_num
  rw [h, decimalToDMS_eval_nonneg 0 59 (14999/250) (by norm_num) (by norm_num)
    (by norm_num) (by norm_num) (by norm_num)]
  refine ⟨?_, rfl⟩
  rw [toFixed2]
  norm_num

/-- C5 counterexample: the round-trip claim requires a correct carry when
the seconds round to `60.00`; at the valid DMS triple `(0, 59, 59.999)` the
round-trip emits `seconds = 60.00` (no carry), so the output is not a valid
DMS rendering of the input. -/
theorem dms_roundtrip_no_carry :
    ¬ (decimalToDMS (dmsToDecimal 0 59 (59999/1000))).seconds < 60 := by
  have h1 : dmsToDecimal 0 59 (59999/1000) = (3599999/3600000 : ℚ) := by
    rw [dmsToDecimal]; norm_num
  have h2 : (3599999/3600000 : ℚ) = ((0 : ℤ) : ℚ) + ((59 : ℤ) : ℚ) / 60 + (59999/1000 : ℚ) / 3600 := by
    norm_num
  rw [h1, h2, decimalToDMS_eval_nonneg 0 59 (59999/1000) (by norm_num) (by norm_num)
    (by norm_num) (by norm_num) (by norm_num)]
  have h3 : toFixed2 (59999/1000) = 60 := by rw [toFixed2]; norm_num
  simp [h3]

/-- C5 (amended): for every valid DMS triple `(d, m, s)` with
`0 ≤ m < 60`, `0 ≤ s < 60`, the round-trip
`decimalToDMS (dmsToDecimal d m s)` reproduces the degrees and minutes
exactly and the seconds within `±0.01`; no carry is performed, so when the
seconds round to `60.00` the result is emitted with `seconds = 60.00` and
the minutes unchanged. -/
theorem dms_roundtrip (d m : ℤ) (s : ℚ) (hm0 : 0 ≤ m) (hm : m < 60)
    (hs0 : 0 ≤ s) (hs : s < 60) :
    (decimalToDMS (dmsToDecimal d m s)).degrees = d ∧
    (decimalToDMS (dmsToDecimal d m s)).minutes = m ∧
    |(decimalToDMS (dmsToDecimal d m s)).seconds - s| ≤ 1/100 := by
  by_cases hd : d < 0
  · have hd1 : 1 ≤ -d := by omega
    have hcast : ((d : ℤ) : ℚ) < 0 := by exact_mod_cast hd
    have hrw : dmsToDecimal d m s = -(((-d : ℤ) : ℚ) + (m : ℚ) / 60 + s / 3600) := by
      rw [dmsToDecimal]
      simp only [if_pos hcast]
      rw [abs_of_neg hcast]
      push_cast
      ring
    rw [hrw, decimalToDMS_eval_neg (-d) m s hd1 hm0 hm hs0 hs]
    exact ⟨by simp, rfl, le_trans (abs_toFixed2_sub_le s) (by norm_num)⟩
  · push_neg at hd
    have hcast : ¬ ((d : ℤ) : ℚ) < 0 := by
      push_neg
      exact_mod_cast hd
    have hrw : dmsToDecimal d m s = (d : ℚ) + (m : ℚ) / 60 + s / 3600 := by
      rw [dmsToDecimal]
      simp only [if_neg hcast]
      rw [abs_of_nonneg (by exact_mod_cast hd : (0:ℚ) ≤ (d : ℚ))]
      ring
    rw [hrw, decimalToDMS_eval_nonneg d m s hd hm0 hm hs0 hs]
    exact ⟨rfl, rfl, le_trans (abs_toFixed2_sub_le s) (by norm_num)⟩

/-- Witness for `dms_roundtrip` at the triple `(10, 45, 45.44)`. -/
theorem dms_roundtrip_witness :
    (decimalToDMS (dmsToDecimal 10 45 (1136/25))).degrees = 10 ∧
    (decimalToDMS (dmsToDecimal 10 45 (1136/25))).minutes = 45 ∧
    |(decimalToDMS (dmsToDecimal 10 45 (1136/25))).seconds - 1136/25| ≤ 1/100 :=
  dms_roundtrip 10 45 (1136/25) (by norm_num) (by norm_num) (by norm_num) (by norm_num)

/-- C7: `validateInput` checks latitude range, longitude range, bearing
range, `distance ≤ 0`, `distance > 100` (warning), then not-a-number, and
the first failing check determines the diagnostic.  In particular a request
with latitude and longitude simultaneously out of range reports the
latitude message, and a `NaN` latitude (whose range comparisons are all
false) together with an out-of-range longitude reports the longitude
message — the `NaN` check comes last. -/
theorem validateInput_precedence :
    (∀ (x : ℚ) (lon az d : JVal), (x < -90 ∨ 90 < x) →
      validateInput (.num x) lon az d = latMsg) ∧
    (∀ (x y : ℚ) (az d : JVal), -90 ≤ x → x ≤ 90 → (y < -180 ∨ 180 < y) →
      validateInput (.num x) (.num y) az d = lonMsg) ∧
    (∀ (x y a : ℚ) (d : JVal), -90 ≤ x → x ≤ 90 → -180 ≤ y → y ≤ 180 →
      (a < 0 ∨ 360 < a) → validateInput (.num x) (.num y) (.num a) d = azMsg) ∧
    (∀ x y a dq : ℚ, -90 ≤ x → x ≤ 90 → -180 ≤ y → y ≤ 180 → 0 ≤ a → a ≤ 360 →
      dq ≤ 0 → validateInput (.num x) (.num y) (.num a) (.num dq) = distMsg) ∧
    (∀ x y a dq : ℚ, -90 ≤ x → x ≤ 90 → -180 ≤ y → y ≤ 180 → 0 ≤ a → a ≤ 360 →
      100 < dq → validateInput (.num x) (.num y) (.num a) (.num dq) = warnMsg) ∧
    (∀ x y a dq : ℚ, -90 ≤ x → x ≤ 90 → -180 ≤ y → y ≤ 180 → 0 ≤ a → a ≤ 360 →
      0 < dq → dq ≤ 100 → validateInput (.num x) (.num y) (.num a) (.num dq) = "") ∧
    (∀ x y a : ℚ, -90 ≤ x → x ≤ 90 → -180 ≤ y → y ≤ 180 → 0 ≤ a → a ≤ 360 →
      validateInput (.num x) (.num y) (.num a) .nan = nanMsg) ∧
    (∀ (y : ℚ) (az d : JVal), (y < -180 ∨ 180 < y) →
      validateInput .nan (.num y) az d = lonMsg) := by
  refine ⟨?_, ?_, ?_, ?_, ?_, ?_, ?_, ?_⟩
  · intro x lon az d h
    rcases h with h | h <;>
      simp [validateInput, JVal.lt, JVal.gt, LAT_MIN, LAT_MAX, h]
  · intro x y az d hx1 hx2 h
    rcases h with h | h <;>
      simp [validateInput, JVal.lt, JVal.gt, LAT_MIN, LAT_MAX, LON_MIN, LON_MAX,
        not_lt.mpr hx1, not_lt.mpr hx2, h]
  · intro x y a d hx1 hx2 hy1 hy2 h
    rcases h with h | h <;>
      simp [validateInput, JVal.lt, JVal.gt, LAT_MIN, LAT_MAX, LON_MIN, LON_MAX,
        AZIMUTH_MIN, AZIMUTH_MAX, not_lt.mpr hx1, not_lt.mpr hx2,
        not_lt.mpr hy1, not_lt.mpr hy2, h]
  · intro x y a dq hx1 hx2 hy1 hy2 ha1 ha2 h
    simp [validateInput, JVal.lt, JVal.gt, JVal.le, LAT_MIN, LAT_MAX, LON_MIN, LON_MAX,
      AZIMUTH_MIN, AZIMUTH_MAX, not_lt.mpr hx1, not_lt.mpr hx2,
      not_lt.mpr hy1, not_lt.mpr hy2, not_lt.mpr ha1, not_lt.mpr ha2, h]
  · intro x y a dq hx1 hx2 hy1 hy2 ha1 ha2 h
    simp [validateInput, JVal.lt, JVal.gt, JVal.le, LAT_MIN, LAT_MAX, LON_MIN, LON_MAX,
      AZIMUTH_MIN, AZIMUTH_MAX, not_lt.mpr hx1, not_lt.mpr hx2,
      not_lt.mpr hy1, not_lt.mpr hy2, not_lt.mpr ha1, not_lt.mpr ha2,
      not_le.mpr (lt_trans (show (0:ℚ) < 100 by norm_num) h), h]
  · intro x y a dq hx1 hx2 hy1 hy2 ha1 ha2 h1 h2
    simp [validateInput, JVal.lt, JVal.gt, JVal.le, JVal.isNaN, LAT_MIN, LAT_MAX,
      LON_MIN, LON_MAX, AZIMUTH_MIN, AZIMUTH_MAX, not_lt.mpr hx1, not_lt.mpr hx2,
      not_lt.mpr hy1, not_lt.mpr hy2, not_lt.mpr ha1, not_lt.mpr ha2,
      not_le.mpr h1, not_lt.mpr h2]
  · intro x y a hx1 hx2 hy1 hy2 ha1 ha2
    simp [validateInput, JVal.lt, JVal.gt, JVal.le, JVal.isNaN, LAT_MIN, LAT_MAX,
      LON_MIN, LON_MAX, AZIMUTH_MIN, AZIMUTH_MAX, not_lt.mpr hx1, not_lt.mpr hx2,
      not_lt.mpr hy1, not_lt.mpr hy2, not_lt.mpr ha1, not_lt.mpr ha2]
  · intro y az d h
    rcases h with h | h <;>
      simp [validateInput, JVal.lt, JVal.gt, LAT_MIN, LAT_MAX, LON_MIN, LON_MAX, h]

/-- C1: the claim says the `>100 km` accuracy warning is non-fatal and
`calculateTarget` still returns a successful result.  In the source any
non-empty return of `validateInput` — the warning included — takes the
failure branch: at `(10, 106, 45°, 150 km)` (all hard range checks pass)
`calculateTarget` returns `{success: false, error: warning}` and computes
nothing. -/
theorem calculateTarget_blocks_on_warning :
    calculateTarget (.num 10) (.num 106) (.num 45) (.num 150) = .failure warnMsg := rfl

/-- C8: `estimateError` is the root-sum-square
`sqrt(gpsError² + (distanceKm·1000·sin(azimuthErrorRad))² + distanceError²)`,
and at `distanceKm = 0.0001` with the source's default parameters
`(10, 0.5, 0.5)` the result is dominated by the 10 m GPS error:
it lies in `[10, 10.1]`. -/
theorem estimateError_spec :
    (∀ d g a e : ℝ, estimateError d g a e =
      Real.sqrt (g ^ 2 + (d * 1000 * Real.sin (a * (Real.pi / 180))) ^ 2 + e ^ 2)) ∧
    10 ≤ estimateError (1/10000) 10 (1/2) (1/2) ∧
    estimateError (1/10000) 10 (1/2) (1/2) ≤ 101/10 := by
  have hv : estimateError (1/10000) 10 (1/2) (1/2) =
      Real.sqrt (10 ^ 2 + ((1/10000) * 1000 * Real.sin ((1/2) * (Real.pi / 180))) ^ 2
        + (1/2) ^ 2) := rfl
  have hS1 : Real.sin ((1/2) * (Real.pi / 180)) ≤ 1 := Real.sin_le_one _
  have hS2 : -1 ≤ Real.sin ((1/2) * (Real.pi / 180)) := Real.neg_one_le_sin _
  refine ⟨fun d g a e => rfl, ?_, ?_⟩
  · rw [hv, Real.le_sqrt' (by norm_num : (0:ℝ) < 10)]
    nlinarith [sq_nonneg ((1/10000 : ℝ) * 1000 * Real.sin ((1/2) * (Real.pi / 180)))]
  · rw [hv]
    refine Real.sqrt_le_iff.mpr ⟨by norm_num, ?_⟩
    nlinarith [hS1, hS2]

/-- C9: the haversine `calculateDistance` is symmetric in its two points and
returns exactly `0` for identical points. -/
theorem calculateDistance_symm_and_zero :
    (∀ lat1 lon1 lat2 lon2 : ℝ,
      calculateDistance lat1 lon1 lat2 lon2 = calculateDistance lat2 lon2 lat1 lon1) ∧
    (∀ lat lon : ℝ, calculateDistance lat lon lat lon = 0) := by
  constructor
  · intro lat1 lon1 lat2 lon2
    have ha :
        Real.sin ((lat1 - lat2) * DEG_TO_RAD / 2) * Real.sin ((lat1 - lat2) * DEG_TO_RAD / 2) +
          Real.cos (lat2 * DEG_TO_RAD) * Real.cos (lat1 * DEG_TO_RAD) *
            Real.sin ((lon1 - lon2) * DEG_TO_RAD / 2) *
            Real.sin ((lon1 - lon2) * DEG_TO_RAD / 2) =
        Real.sin ((lat2 - lat1) * DEG_TO_RAD / 2) * Real.sin ((lat2 - lat1) * DEG_TO_RAD / 2) +
          Real.cos (lat1 * DEG_TO_RAD) * Real.cos (lat2 * DEG_TO_RAD) *
            Real.sin ((lon2 - lon1) * DEG_TO_RAD / 2) *
            Real.sin ((lon2 - lon1) * DEG_TO_RAD / 2) := by
      rw [show (lat1 - lat2) * DEG_TO_RAD / 2 = -((lat2 - lat1) * DEG_TO_RAD / 2) by ring,
        show (lon1 - lon2) * DEG_TO_RAD / 2 = -((lon2 - lon1) * DEG_TO_RAD / 2) by ring,
        Real.sin_neg, Real.sin_neg]
      ring
    simp only [calculateDistance]
    rw [ha]
  · intro lat lon
    simp only [calculateDistance, sub_self, zero_mul, zero_div, Real.sin_zero,
      mul_zero, add_zero, zero_add, Real.sqrt_zero, sub_zero, Real.sqrt_one]
    have h0 : atan2 0 1 = 0 := by
      rw [atan2]
      simp [Complex.arg_one]
    rw [h0]
    ring

lemma jsMod_nonneg_lt (a b : ℝ) (ha : 0 ≤ a) (hb : 0 < b) :
    0 ≤ jsMod a b ∧ jsMod a b < b := by
  rw [jsMod, jsTrunc, if_pos (div_nonneg ha hb.le)]
  have h1 : (⌊a / b⌋ : ℝ) ≤ a / b := Int.floor_le _
  have h2 : a / b < ⌊a / b⌋ + 1 := Int.lt_floor_add_one _
  have hab : b * (a / b) = a := by field_simp
  constructor
  · have := mul_le_mul_of_nonneg_left h1 hb.le
    rw [hab] at this
    linarith
  · have := mul_lt_mul_of_pos_left h2 hb
    rw [hab] at this
    linarith

lemma jsMod_eq_self (a b : ℝ) (ha : 0 ≤ a) (hab : a < b) : jsMod a b = a := by
  have hb : 0 < b := lt_of_le_of_lt ha hab
  rw [jsMod, jsTrunc, if_pos (div_nonneg ha hb.le)]
  have : ⌊a / b⌋ = 0 := by
    rw [Int.floor_eq_zero_iff]
    exact ⟨div_nonneg ha hb.le, (div_lt_one hb).mpr hab⟩
  rw [this]
  norm_num

lemma jsMod_eq_sub (a b : ℝ) (hb : b ≤ a) (hab : a < 2 * b) (h0 : 0 < b) :
    jsMod a b = a - b := by
  rw [jsMod, jsTrunc, if_pos (div_nonneg (le_trans h0.le hb) h0.le)]
  have : ⌊a / b⌋ = 1 := by
    rw [Int.floor_eq_iff]
    constructor
    · rw [Int.cast_one, le_div_iff₀ h0]
      linarith
    · rw [Int.cast_one, div_lt_iff₀ h0]
      linarith
  rw [this]
  norm_num

lemma abs_add_mul_I_eq (y x : ℝ) :
    Complex.abs ((x : ℂ) + (y : ℂ) * Complex.I) = Real.sqrt (x ^ 2 + y ^ 2) := by
  rw [Complex.abs_apply, Complex.normSq_add_mul_I]

/-- The defining property of `atan2` on the cosine side. -/
lemma sqrt_mul_cos_atan2 (y x : ℝ) :
    Real.sqrt (x ^ 2 + y ^ 2) * Real.cos (atan2 y x) = x := by
  by_cases hz : (x : ℂ) + (y : ℂ) * Complex.I = 0
  · have hxy : x = 0 ∧ y = 0 := by
      constructor
      · simpa using congrArg Complex.re hz
      · simpa using congrArg Complex.im hz
    rw [hxy.1, hxy.2]
    norm_num
  · have habs := abs_add_mul_I_eq y x
    rw [atan2, Complex.cos_arg hz]
    have hre : ((x : ℂ) + (y : ℂ) * Complex.I).re = x := by simp
    rw [hre, habs]
    have hpos : 0 < Real.sqrt (x ^ 2 + y ^ 2) := by
      rw [← habs]
      exact Complex.abs.pos hz
    field_simp

/-- The defining property of `atan2` on the sine side. -/
lemma sqrt_mul_sin_atan2 (y x : ℝ) :
    Real.sqrt (x ^ 2 + y ^ 2) * Real.sin (atan2 y x) = y := by
  by_cases hz : (x : ℂ) + (y : ℂ) * Complex.I = 0
  · have hxy : x = 0 ∧ y = 0 := by
      constructor
      · simpa using congrArg Complex.re hz
      · simpa using congrArg Complex.im hz
    rw [hxy.1, hxy.2]
    norm_num
  · have habs := abs_add_mul_I_eq y x
    rw [atan2, Complex.sin_arg]
    have him : ((x : ℂ) + (y : ℂ) * Complex.I).im = y := by simp
    rw [him, habs]
    have hpos : 0 < Real.sqrt (x ^ 2 + y ^ 2) := by
      rw [← habs]
      exact Complex.abs.pos hz
    field_simp

lemma atan2_mem_Ioc (y x : ℝ) : -Real.pi < atan2 y x ∧ atan2 y x ≤ Real.pi :=
  ⟨(Complex.arg_mem_Ioc _).1, (Complex.arg_mem_Ioc _).2⟩

/-- The latitude computed by `calculateTargetCoordinate`, unfolded. -/
lemma target_lat_eq (lat lon a d : ℝ) :
    (calculateTargetCoordinate lat lon a d).lat =
      Real.arcsin (Real.sin (lat * DEG_TO_RAD) * Real.cos (d / EARTH_RADIUS_KM) +
        Real.cos (lat * DEG_TO_RAD) * Real.sin (d / EARTH_RADIUS_KM) *
        Real.cos (a * DEG_TO_RAD)) * RAD_TO_DEG := rfl

/-- The longitude computed by `calculateTargetCoordinate`, unfolded. -/
lemma target_lon_eq (lat lon a d : ℝ) :
    (calculateTargetCoordinate lat lon a d).lon =
      jsMod ((lon * DEG_TO_RAD + atan2
        (Real.sin (a * DEG_TO_RAD) * Real.sin (d / EARTH_RADIUS_KM) * Real.cos (lat * DEG_TO_RAD))
        (Real.cos (d / EARTH_RADIUS_KM) - Real.sin (lat * DEG_TO_RAD) *
          Real.sin (Real.arcsin (Real.sin (lat * DEG_TO_RAD) * Real.cos (d / EARTH_RADIUS_KM) +
            Real.cos (lat * DEG_TO_RAD) * Real.sin (d / EARTH_RADIUS_KM) *
            Real.cos (a * DEG_TO_RAD))))) * RAD_TO_DEG + 540) 360 - 180 := rfl

/-- The longitude normalisation `((x + 540) % 360) - 180` changes the raw
longitude `lon + Δ·RAD_TO_DEG` by a whole number of turns: back in radians,
the longitude difference between target and observer is the `atan2` value
plus an integer multiple of `2π`. -/
lemma target_lon_sub (lat lon a d : ℝ) :
    ∃ m : ℤ, ((calculateTargetCoordinate lat lon a d).lon - lon) * DEG_TO_RAD =
      atan2
        (Real.sin (a * DEG_TO_RAD) * Real.sin (d / EARTH_RADIUS_KM) * Real.cos (lat * DEG_TO_RAD))
        (Real.cos (d / EARTH_RADIUS_KM) - Real.sin (lat * DEG_TO_RAD) *
          Real.sin (Real.arcsin (Real.sin (lat * DEG_TO_RAD) * Real.cos (d / EARTH_RADIUS_KM) +
            Real.cos (lat * DEG_TO_RAD) * Real.sin (d / EARTH_RADIUS_KM) *
            Real.cos (a * DEG_TO_RAD)))) + (m : ℝ) * (2 * Real.pi) := by
  classical
  refine ⟨1 - jsTrunc (((lon * DEG_TO_RAD + atan2
      (Real.sin (a * DEG_TO_RAD) * Real.sin (d / EARTH_RADIUS_KM) * Real.cos (lat * DEG_TO_RAD))
      (Real.cos (d / EARTH_RADIUS_KM) - Real.sin (lat * DEG_TO_RAD) *
        Real.sin (Real.arcsin (Real.sin (lat * DEG_TO_RAD) * Real.cos (d / EARTH_RADIUS_KM) +
          Real.cos (lat * DEG_TO_RAD) * Real.sin (d / EARTH_RADIUS_KM) *
          Real.cos (a * DEG_TO_RAD))))) * RAD_TO_DEG + 540) / 360), ?_⟩
  rw [target_lon_eq, jsMod, DEG_TO_RAD, RAD_TO_DEG]
  have hπ : Real.pi ≠ 0 := Real.pi_ne_zero
  push_cast
  field_simp
  ring

/-- Bounds of the normalised longitude `((lon + Δ + 540) % 360) - 180` for an
in-range observer longitude and `Δ = A·RAD_TO_DEG` with `A ∈ (-π, π]`. -/
lemma jsNorm_lon_bounds (lon A : ℝ) (hA1 : -Real.pi < A) (hA2 : A ≤ Real.pi)
    (h3 : -180 ≤ lon) (h4 : lon ≤ 180) :
    -180 ≤ jsMod ((lon * DEG_TO_RAD + A) * RAD_TO_DEG + 540) 360 - 180 ∧
    jsMod ((lon * DEG_TO_RAD + A) * RAD_TO_DEG + 540) 360 - 180 < 180 := by
  have hπ : (0:ℝ) < Real.pi := Real.pi_pos
  have hr : (0:ℝ) < 180 / Real.pi := by positivity
  have hpi180 : Real.pi * (180 / Real.pi) = 180 := by
    field_simp
  have hW : (lon * DEG_TO_RAD + A) * RAD_TO_DEG = lon + A * (180 / Real.pi) := by
    rw [DEG_TO_RAD, RAD_TO_DEG]
    field_simp
  have hA3 : A * (180 / Real.pi) ≤ 180 := by
    calc A * (180 / Real.pi) ≤ Real.pi * (180 / Real.pi) :=
          mul_le_mul_of_nonneg_right hA2 hr.le
    _ = 180 := hpi180
  have hA4 : -180 < A * (180 / Real.pi) := by
    have h := mul_lt_mul_of_pos_right hA1 hr
    rw [neg_mul, hpi180] at h
    exact h
  have h0 : 0 ≤ (lon * DEG_TO_RAD + A) * RAD_TO_DEG + 540 := by
    rw [hW]
    linarith
  have hb := jsMod_nonneg_lt ((lon * DEG_TO_RAD + A) * RAD_TO_DEG + 540) 360 h0 (by norm_num)
  exact ⟨by linarith [hb.1], by linarith [hb.2]⟩

lemma atan2_zero_of_pos (x : ℝ) (hx : 0 < x) : atan2 0 x = 0 := by
  rw [atan2]
  have : ((0:ℝ) : ℂ) * Complex.I = 0 := by simp
  rw [this, add_zero]
  exact Complex.arg_ofReal_of_nonneg hx.le

/-- C6: for an observer in valid range and any bearing and positive
distance, the target of `calculateTargetCoordinate` satisfies the
`GeoPoint` invariants: latitude in `[-90, 90]` and longitude in
`[-180, 180]` (the normalisation is applied unconditionally in the
definition, mirroring source line 147). -/
theorem calculateTargetCoordinate_in_range (lat lon brg d : ℝ)
    (h1 : -90 ≤ lat) (h2 : lat ≤ 90) (h3 : -180 ≤ lon) (h4 : lon ≤ 180) (h5 : 0 < d) :
    -90 ≤ (calculateTargetCoordinate lat lon brg d).lat ∧
    (calculateTargetCoordinate lat lon brg d).lat ≤ 90 ∧
    -180 ≤ (calculateTargetCoordinate lat lon brg d).lon ∧
    (calculateTargetCoordinate lat lon brg d).lon ≤ 180 := by
  have hπ : (0:ℝ) < Real.pi := Real.pi_pos
  have hr : (0:ℝ) < 180 / Real.pi := by positivity
  have h90 : Real.pi / 2 * (180 / Real.pi) = 90 := by
    field_simp
    ring
  have hlat : -90 ≤ (calculateTargetCoordinate lat lon brg d).lat ∧
      (calculateTargetCoordinate lat lon brg d).lat ≤ 90 := by
    rw [target_lat_eq, RAD_TO_DEG]
    constructor
    · have h := mul_le_mul_of_nonneg_right (Real.neg_pi_div_two_le_arcsin
        (Real.sin (lat * DEG_TO_RAD) * Real.cos (d / EARTH_RADIUS_KM) +
          Real.cos (lat * DEG_TO_RAD) * Real.sin (d / EARTH_RADIUS_KM) *
          Real.cos (brg * DEG_TO_RAD))) hr.le
      rw [neg_mul, h90] at h
      exact h
    · have h := mul_le_mul_of_nonneg_right (Real.arcsin_le_pi_div_two
        (Real.sin (lat * DEG_TO_RAD) * Real.cos (d / EARTH_RADIUS_KM) +
          Real.cos (lat * DEG_TO_RAD) * Real.sin (d / EARTH_RADIUS_KM) *
          Real.cos (brg * DEG_TO_RAD))) hr.le
      rw [h90] at h
      exact h
  have hlon : -180 ≤ (calculateTargetCoordinate lat lon brg d).lon ∧
      (calculateTargetCoordinate lat lon brg d).lon < 180 := by
    rw [target_lon_eq]
    exact jsNorm_lon_bounds lon _ ((Complex.arg_mem_Ioc _).1) ((Complex.arg_mem_Ioc _).2) h3 h4
  exact ⟨hlat.1, hlat.2, hlon.1, hlon.2.le⟩

/-- Witness for `calculateTargetCoordinate_in_range` at the scenario
`(10, 106, 45°, 2.5 km)`. -/
theorem calculateTargetCoordinate_in_range_witness :
    -90 ≤ (calculateTargetCoordinate 10 106 45 (5/2)).lat ∧
    (calculateTargetCoordinate 10 106 45 (5/2)).lat ≤ 90 ∧
    -180 ≤ (calculateTargetCoordinate 10 106 45 (5/2)).lon ∧
    (calculateTargetCoordinate 10 106 45 (5/2)).lon ≤ 180 :=
  calculateTargetCoordinate_in_range 10 106 45 (5/2) (by norm_num) (by norm_num)
    (by norm_num) (by norm_num) (by norm_num)

/-- C10: the normalised longitude is always in the half-open interval
`[-180, 180)`; in particular an observer on the antimeridian (longitude
`180`) aiming due north over a short distance gets target longitude `-180`,
never the echoed `+180`. -/
theorem calculateTargetCoordinate_lon_half_open (lat lon brg d : ℝ)
    (h3 : -180 ≤ lon) (h4 : lon ≤ 180) :
    (-180 ≤ (calculateTargetCoordinate lat lon brg d).lon ∧
      (calculateTargetCoordinate lat lon brg d).lon < 180) ∧
    (calculateTargetCoordinate 0 180 0 1).lon = -180 := by
  constructor
  · rw [target_lon_eq]
    exact jsNorm_lon_bounds lon _ ((Complex.arg_mem_Ioc _).1) ((Complex.arg_mem_Ioc _).2) h3 h4
  · rw [target_lon_eq]
    have hδ2 : 1 / EARTH_RADIUS_KM < Real.pi / 2 := by
      rw [EARTH_RADIUS_KM]
      nlinarith [Real.pi_gt_three]
    have hδ1 : -(Real.pi / 2) < 1 / EARTH_RADIUS_KM := by
      rw [EARTH_RADIUS_KM]
      nlinarith [Real.pi_gt_three]
    have hcos : 0 < Real.cos (1 / EARTH_RADIUS_KM) :=
      Real.cos_pos_of_mem_Ioo ⟨hδ1, hδ2⟩
    simp only [zero_mul, Real.sin_zero, Real.cos_zero, one_mul, mul_one, sub_zero]
    rw [atan2_zero_of_pos _ hcos, add_zero]
    have hW : 180 * DEG_TO_RAD * RAD_TO_DEG + 540 = 720 := by
      rw [DEG_TO_RAD, RAD_TO_DEG]
      have hπ : Real.pi ≠ 0 := Real.pi_ne_zero
      field_simp
      norm_num
    rw [hW]
    have h720 : jsMod 720 360 = 0 := by
      rw [jsMod, jsTrunc, if_pos (by norm_num : (0:ℝ) ≤ 720 / 360)]
      norm_num
    rw [h720]
    norm_num

/-- Witness for `calculateTargetCoordinate_lon_half_open` at the observer
`(0, 180)`, bearing `0`, distance `1 km`. -/
theorem calculateTargetCoordinate_lon_half_open_witness :
    (-180 ≤ (calculateTargetCoordinate 0 180 0 1).lon ∧
      (calculateTargetCoordinate 0 180 0 1).lon < 180) ∧
    (calculateTargetCoordinate 0 180 0 1).lon = -180 :=
  calculateTargetCoordinate_lon_half_open 0 180 0 1 (by norm_num) (by norm_num)

/-- sin, cos of latitude/bearing/angular distance: the squared sine of the
destination latitude and the two components of the longitude `atan2` sum to
one. -/
lemma forward_core (φ1 θ δ : ℝ) :
    (Real.sin φ1 * Real.cos δ + Real.cos φ1 * Real.sin δ * Real.cos θ) ^ 2 +
      (Real.cos φ1 * Real.cos δ - Real.sin φ1 * Real.sin δ * Real.cos θ) ^ 2 +
      (Real.sin δ * Real.sin θ) ^ 2 = 1 := by
  have h1 := Real.sin_sq_add_cos_sq φ1
  have h2 := Real.sin_sq_add_cos_sq δ
  have h3 := Real.sin_sq_add_cos_sq θ
  linear_combination (Real.cos δ ^ 2 + Real.sin δ ^ 2 * Real.cos θ ^ 2) * h1 +
    Real.sin δ ^ 2 * h3 + h2

/-- The sine of the destination latitude lies in `[-1, 1]`. -/
lemma forward_S_bounds (φ1 θ δ : ℝ) :
    -1 ≤ Real.sin φ1 * Real.cos δ + Real.cos φ1 * Real.sin δ * Real.cos θ ∧
    Real.sin φ1 * Real.cos δ + Real.cos φ1 * Real.sin δ * Real.cos θ ≤ 1 := by
  have hcore := forward_core φ1 θ δ
  constructor
  · nlinarith [sq_nonneg (Real.cos φ1 * Real.cos δ - Real.sin φ1 * Real.sin δ * Real.cos θ),
      sq_nonneg (Real.sin δ * Real.sin θ),
      sq_nonneg (Real.sin φ1 * Real.cos δ + Real.cos φ1 * Real.sin δ * Real.cos θ + 1)]
  · nlinarith [sq_nonneg (Real.cos φ1 * Real.cos δ - Real.sin φ1 * Real.sin δ * Real.cos θ),
      sq_nonneg (Real.sin δ * Real.sin θ),
      sq_nonneg (Real.sin φ1 * Real.cos δ + Real.cos φ1 * Real.sin δ * Real.cos θ - 1)]

/-- `cos φ1 · cos φ2 · cos Δλ = cos δ - sin φ1 · sin φ2` for the longitude
offset `Δλ = atan2(Y, X)` of the forward solution (also valid in the
degenerate cases where the `atan2` argument vanishes). -/
lemma forward_cosA (φ1 θ δ : ℝ) (hc1 : 0 ≤ Real.cos φ1) :
    Real.cos φ1 * Real.sqrt (1 -
        (Real.sin φ1 * Real.cos δ + Real.cos φ1 * Real.sin δ * Real.cos θ) ^ 2) *
      Real.cos (atan2 (Real.sin θ * Real.sin δ * Real.cos φ1)
        (Real.cos δ - Real.sin φ1 *
          (Real.sin φ1 * Real.cos δ + Real.cos φ1 * Real.sin δ * Real.cos θ))) =
    Real.cos δ - Real.sin φ1 *
      (Real.sin φ1 * Real.cos δ + Real.cos φ1 * Real.sin δ * Real.cos θ) := by
  have hpy := Real.sin_sq_add_cos_sq φ1
  have hcore := forward_core φ1 θ δ
  have hXu : Real.cos δ - Real.sin φ1 *
      (Real.sin φ1 * Real.cos δ + Real.cos φ1 * Real.sin δ * Real.cos θ) =
      Real.cos φ1 * (Real.cos φ1 * Real.cos δ - Real.sin φ1 * Real.sin δ * Real.cos θ) := by
    linear_combination (-Real.cos δ) * hpy
  have habs : Real.sqrt ((Real.cos δ - Real.sin φ1 *
        (Real.sin φ1 * Real.cos δ + Real.cos φ1 * Real.sin δ * Real.cos θ)) ^ 2 +
        (Real.sin θ * Real.sin δ * Real.cos φ1) ^ 2) =
      Real.cos φ1 * Real.sqrt (1 -
        (Real.sin φ1 * Real.cos δ + Real.cos φ1 * Real.sin δ * Real.cos θ) ^ 2) := by
    rw [hXu]
    have h2 : (Real.cos φ1 * (Real.cos φ1 * Real.cos δ - Real.sin φ1 * Real.sin δ * Real.cos θ)) ^ 2 +
        (Real.sin θ * Real.sin δ * Real.cos φ1) ^ 2 =
        Real.cos φ1 ^ 2 * (1 -
          (Real.sin φ1 * Real.cos δ + Real.cos φ1 * Real.sin δ * Real.cos θ) ^ 2) := by
      linear_combination (Real.cos φ1 ^ 2) * hcore
    rw [h2, Real.sqrt_mul (sq_nonneg _), Real.sqrt_sq hc1]
  rw [← habs]
  exact sqrt_mul_cos_atan2 _ _

/-- As `forward_cosA`, on the sine side:
`cos φ1 · cos φ2 · sin Δλ = sin θ · sin δ · cos φ1`. -/
lemma forward_sinA (φ1 θ δ : ℝ) (hc1 : 0 ≤ Real.cos φ1) :
    Real.cos φ1 * Real.sqrt (1 -
        (Real.sin φ1 * Real.cos δ + Real.cos φ1 * Real.sin δ * Real.cos θ) ^ 2) *
      Real.sin (atan2 (Real.sin θ * Real.sin δ * Real.cos φ1)
        (Real.cos δ - Real.sin φ1 *
          (Real.sin φ1 * Real.cos δ + Real.cos φ1 * Real.sin δ * Real.cos θ))) =
    Real.sin θ * Real.sin δ * Real.cos φ1 := by
  have hpy := Real.sin_sq_add_cos_sq φ1
  have hcore := forward_core φ1 θ δ
  have hXu : Real.cos δ - Real.sin φ1 *
      (Real.sin φ1 * Real.cos δ + Real.cos φ1 * Real.sin δ * Real.cos θ) =
      Real.cos φ1 * (Real.cos φ1 * Real.cos δ - Real.sin φ1 * Real.sin δ * Real.cos θ) := by
    linear_combination (-Real.cos δ) * hpy
  have habs : Real.sqrt ((Real.cos δ - Real.sin φ1 *
        (Real.sin φ1 * Real.cos δ + Real.cos φ1 * Real.sin δ * Real.cos θ)) ^ 2 +
        (Real.sin θ * Real.sin δ * Real.cos φ1) ^ 2) =
      Real.cos φ1 * Real.sqrt (1 -
        (Real.sin φ1 * Real.cos δ + Real.cos φ1 * Real.sin δ * Real.cos θ) ^ 2) := by
    rw [hXu]
    have h2 : (Real.cos φ1 * (Real.cos φ1 * Real.cos δ - Real.sin φ1 * Real.sin δ * Real.cos θ)) ^ 2 +
        (Real.sin θ * Real.sin δ * Real.cos φ1) ^ 2 =
        Real.cos φ1 ^ 2 * (1 -
          (Real.sin φ1 * Real.cos δ + Real.cos φ1 * Real.sin δ * Real.cos θ) ^ 2) := by
      linear_combination (Real.cos φ1 ^ 2) * hcore
    rw [h2, Real.sqrt_mul (sq_nonneg _), Real.sqrt_sq hc1]
  rw [← habs]
  exact sqrt_mul_sin_atan2 _ _

/-- Half-angle square of the sine, in product form. -/
lemma sin_half_sq (t : ℝ) :
    Real.sin (t / 2) * Real.sin (t / 2) = (1 - Real.cos t) / 2 := by
  have h := Real.sin_sq_eq_half_sub (t / 2)
  rw [show 2 * (t / 2) = t from by ring] at h
  nlinarith [h]

/-- `atan2 (sin t) (cos t) = t` on `(-π, π]`. -/
lemma atan2_sin_cos (t : ℝ) (h1 : -Real.pi < t) (h2 : t ≤ Real.pi) :
    atan2 (Real.sin t) (Real.cos t) = t := by
  rw [atan2, Complex.ofReal_cos, Complex.ofReal_sin]
  exact Complex.arg_cos_add_sin_mul_I ⟨h1, h2⟩

/-- The haversine term recomputed between the observer and the forward
solution collapses to `(1 - cos δ)/2`, given the `cos Δλ` relation. -/
lemma hav_core (φ1 S δ A : ℝ) (m : ℤ) (hS1 : -1 ≤ S) (hS2 : S ≤ 1)
    (hcosA : Real.cos φ1 * Real.sqrt (1 - S ^ 2) * Real.cos A =
      Real.cos δ - Real.sin φ1 * S) :
    Real.sin ((Real.arcsin S - φ1) / 2) * Real.sin ((Real.arcsin S - φ1) / 2) +
      Real.cos φ1 * Real.cos (Real.arcsin S) *
        Real.sin ((A + (m : ℝ) * (2 * Real.pi)) / 2) *
        Real.sin ((A + (m : ℝ) * (2 * Real.pi)) / 2) = (1 - Real.cos δ) / 2 := by
  have e1 := sin_half_sq (Real.arcsin S - φ1)
  have e2 := sin_half_sq (A + (m : ℝ) * (2 * Real.pi))
  have e3 : Real.cos (A + (m : ℝ) * (2 * Real.pi)) = Real.cos A :=
    Real.cos_add_int_mul_two_pi A m
  have e4 : Real.cos (Real.arcsin S - φ1) =
      Real.cos (Real.arcsin S) * Real.cos φ1 + Real.sin (Real.arcsin S) * Real.sin φ1 :=
    Real.cos_sub _ _
  have e5 : Real.sin (Real.arcsin S) = S := Real.sin_arcsin hS1 hS2
  have e6 : Real.cos (Real.arcsin S) = Real.sqrt (1 - S ^ 2) := Real.cos_arcsin S
  linear_combination e1 + (Real.cos φ1 * Real.cos (Real.arcsin S)) * e2 -
    (1/2) * e4 - (Real.sin φ1 / 2) * e5 -
    (Real.cos φ1 * Real.cos (Real.arcsin S) / 2) * e3 -
    (Real.cos φ1 * Real.cos A / 2) * e6 - (1/2) * hcosA

/-- Unit plumbing: `x·RAD_TO_DEG·DEG_TO_RAD = x`. -/
lemma rad_deg_cancel (x : ℝ) : x * RAD_TO_DEG * DEG_TO_RAD = x := by
  rw [RAD_TO_DEG, DEG_TO_RAD]
  have hπ : Real.pi ≠ 0 := Real.pi_ne_zero
  field_simp

/-- Unit plumbing: `(x·RAD_TO_DEG - y)·DEG_TO_RAD = x - y·DEG_TO_RAD`. -/
lemma deg_sub_cancel (x y : ℝ) :
    (x * RAD_TO_DEG - y) * DEG_TO_RAD = x - y * DEG_TO_RAD := by
  rw [RAD_TO_DEG, DEG_TO_RAD]
  have hπ : Real.pi ≠ 0 := Real.pi_ne_zero
  field_simp
  ring

/-- C4 (amended): for every observer in valid range, any bearing in
`[0, 360]` and `0 < distance ≤ 6371·π` km (up to the antipode), the
haversine distance from the observer to the forward solution equals the
input distance (exactly, in real arithmetic), in particular within
`1e-6` km.  Beyond the antipode the identity fails (see the
counterexample), because the haversine always returns the shorter arc. -/
theorem calculateDistance_roundtrip (lat lon brg d : ℝ)
    (h1 : -90 ≤ lat) (h2 : lat ≤ 90) (h3 : -180 ≤ lon) (h4 : lon ≤ 180)
    (h5 : 0 ≤ brg) (h6 : brg ≤ 360) (h7 : 0 < d) (h8 : d ≤ 6371 * Real.pi) :
    |calculateDistance lat lon (calculateTargetCoordinate lat lon brg d).lat
      (calculateTargetCoordinate lat lon brg d).lon - d| ≤ 1/1000000 := by
  have hπ : (0:ℝ) < Real.pi := Real.pi_pos
  have hR : EARTH_RADIUS_KM = 6371 := by rw [EARTH_RADIUS_KM]; norm_num
  have hδ0 : 0 < d / EARTH_RADIUS_KM := by rw [hR]; positivity
  have hδπ : d / EARTH_RADIUS_KM ≤ Real.pi := by
    rw [hR, div_le_iff₀ (by norm_num : (0:ℝ) < 6371)]
    linarith
  have hc1 : 0 ≤ Real.cos (lat * DEG_TO_RAD) := by
    apply Real.cos_nonneg_of_mem_Icc
    constructor
    · rw [DEG_TO_RAD]
      nlinarith
    · rw [DEG_TO_RAD]
      nlinarith
  have hSb := forward_S_bounds (lat * DEG_TO_RAD) (brg * DEG_TO_RAD) (d / EARTH_RADIUS_KM)
  obtain ⟨m, hm⟩ := target_lon_sub lat lon brg d
  rw [Real.sin_arcsin hSb.1 hSb.2] at hm
  have hcosA := forward_cosA (lat * DEG_TO_RAD) (brg * DEG_TO_RAD) (d / EARTH_RADIUS_KM) hc1
  simp only [calculateDistance]
  rw [target_lat_eq, hm]
  simp only [rad_deg_cancel, deg_sub_cancel]
  rw [hav_core (lat * DEG_TO_RAD) _ (d / EARTH_RADIUS_KM) _ m hSb.1 hSb.2 hcosA]
  rw [show (1:ℝ) - (1 - Real.cos (d / EARTH_RADIUS_KM)) / 2 =
    (1 + Real.cos (d / EARTH_RADIUS_KM)) / 2 from by ring]
  have hs1 : Real.sqrt ((1 - Real.cos (d / EARTH_RADIUS_KM)) / 2) =
      Real.sin (d / EARTH_RADIUS_KM / 2) := by
    rw [← sin_half_sq]
    exact Real.sqrt_mul_self
      (Real.sin_nonneg_of_nonneg_of_le_pi (by positivity) (by linarith))
  have hs2 : Real.sqrt ((1 + Real.cos (d / EARTH_RADIUS_KM)) / 2) =
      Real.cos (d / EARTH_RADIUS_KM / 2) := by
    have h := Real.cos_sq (d / EARTH_RADIUS_KM / 2)
    rw [show 2 * (d / EARTH_RADIUS_KM / 2) = d / EARTH_RADIUS_KM from by ring] at h
    rw [show (1 + Real.cos (d / EARTH_RADIUS_KM)) / 2 =
      Real.cos (d / EARTH_RADIUS_KM / 2) ^ 2 from by linarith]
    exact Real.sqrt_sq (Real.cos_nonneg_of_mem_Icc ⟨by linarith, by linarith⟩)
  rw [hs1, hs2, atan2_sin_cos _ (by linarith) (by linarith)]
  rw [show EARTH_RADIUS_KM * (2 * (d / EARTH_RADIUS_KM / 2)) = d from by
    rw [hR]
    field_simp
    ring]
  simp

/-- Witness for `calculateDistance_roundtrip` at the observer `(0, 0)`,
bearing `0`, distance `6371·π` km. -/
theorem calculateDistance_roundtrip_witness :
    |calculateDistance 0 0 (calculateTargetCoordinate 0 0 0 (6371 * Real.pi)).lat
      (calculateTargetCoordinate 0 0 0 (6371 * Real.pi)).lon - 6371 * Real.pi| ≤ 1/1000000 :=
  calculateDistance_roundtrip 0 0 0 (6371 * Real.pi) (by norm_num) (by norm_num)
    (by norm_num) (by norm_num) (by norm_num) (by norm_num)
    (by positivity) (le_refl _)

/-- C4 counterexample: the claim as stated quantifies over every positive
distance.  At `distance = 6371·(3π/2)` km (three quarters of a great
circle) the recomputed haversine distance is `6371·(π/2)`, off by
`6371·π ≈ 20015` km. -/
theorem calculateDistance_roundtrip_fails_far :
    ¬ |calculateDistance 0 0
        (calculateTargetCoordinate 0 0 0 (6371 * (3 * Real.pi / 2))).lat
        (calculateTargetCoordinate 0 0 0 (6371 * (3 * Real.pi / 2))).lon
        - 6371 * (3 * Real.pi / 2)| ≤ 1/1000000 := by
  have hπ : (0:ℝ) < Real.pi := Real.pi_pos
  have hR : EARTH_RADIUS_KM = 6371 := by rw [EARTH_RADIUS_KM]; norm_num
  have hδ : 6371 * (3 * Real.pi / 2) / EARTH_RADIUS_KM = 3 * Real.pi / 2 := by
    rw [hR]
    field_simp
    ring
  have hsin32 : Real.sin (3 * Real.pi / 2) = -1 := by
    rw [show 3 * Real.pi / 2 = Real.pi + Real.pi / 2 from by ring, Real.sin_add]
    simp
  have hcos32 : Real.cos (3 * Real.pi / 2) = 0 := by
    rw [show 3 * Real.pi / 2 = Real.pi + Real.pi / 2 from by ring, Real.cos_add]
    simp
  have htlat : (calculateTargetCoordinate 0 0 0 (6371 * (3 * Real.pi / 2))).lat = -90 := by
    rw [target_lat_eq, hδ]
    simp only [zero_mul, Real.sin_zero, Real.cos_zero, one_mul, mul_one, zero_add]
    rw [hsin32, Real.arcsin_neg_one, RAD_TO_DEG]
    field_simp
    ring
  have htlon : (calculateTargetCoordinate 0 0 0 (6371 * (3 * Real.pi / 2))).lon = 0 := by
    rw [target_lon_eq, hδ]
    simp only [zero_mul, Real.sin_zero, Real.cos_zero, one_mul, mul_one, zero_add, sub_zero]
    rw [hcos32]
    rw [show atan2 0 0 = 0 from by rw [atan2]; simp]
    simp only [add_zero, zero_mul, zero_add]
    rw [jsMod_eq_sub 540 360 (by norm_num) (by norm_num) (by norm_num)]
    norm_num
  rw [htlat, htlon]
  simp only [calculateDistance, sub_self, sub_zero, zero_sub, zero_mul, mul_zero,
    zero_div, Real.sin_zero, mul_one, add_zero]
  rw [show (-90:ℝ) * DEG_TO_RAD / 2 = -(Real.pi / 4) from by rw [DEG_TO_RAD]; ring]
  rw [Real.sin_neg, neg_mul_neg]
  rw [show Real.sin (Real.pi / 4) * Real.sin (Real.pi / 4) = 1/2 from by
    rw [Real.sin_pi_div_four, div_mul_div_comm,
      Real.mul_self_sqrt (by norm_num : (0:ℝ) ≤ 2)]
    norm_num]
  rw [show (1:ℝ) - 1/2 = 1/2 from by norm_num]
  have hhalf_sin : Real.sqrt (1/2) = Real.sin (Real.pi / 4) := by
    rw [Real.sin_pi_div_four]
    rw [show (1/2 : ℝ) = (Real.sqrt 2 / 2) ^ 2 from by
      rw [div_pow, Real.sq_sqrt (by norm_num : (0:ℝ) ≤ 2)]
      norm_num]
    exact Real.sqrt_sq (by positivity)
  rw [hhalf_sin]
  nth_rewrite 2 [show Real.sin (Real.pi / 4) = Real.cos (Real.pi / 4) from by
    rw [Real.sin_pi_div_four, Real.cos_pi_div_four]]
  rw [atan2_sin_cos (Real.pi / 4) (by linarith) (by linarith)]
  rw [hR, not_le]
  rw [show (6371:ℝ) * (2 * (Real.pi / 4)) - 6371 * (3 * Real.pi / 2) =
    -(6371 * Real.pi) from by ring]
  rw [abs_neg, abs_of_nonneg (by positivity)]
  nlinarith [Real.pi_gt_three]

/-- Unit plumbing: `x·DEG_TO_RAD·RAD_TO_DEG = x`. -/
lemma deg_rad_cancel (x : ℝ) : x * DEG_TO_RAD * RAD_TO_DEG = x := by
  rw [RAD_TO_DEG, DEG_TO_RAD]
  have hπ : Real.pi ≠ 0 := Real.pi_ne_zero
  field_simp

/-- C3 (amended): for every observer strictly inside the poles, longitude
in range, bearing in `[0, 360)` and `0 < distance < 6371·π` km (short of
the antipode), the bearing recomputed from the observer to the forward
solution equals the input bearing (exactly, in real arithmetic), in
particular within `1e-6` degrees.  At a pole the bearing is degenerate
(see the counterexample), at the antipode it is undefined, and at bearing
exactly `360` the recomputed value is `0`. -/
theorem calculateBearing_roundtrip (lat lon brg d : ℝ)
    (h1 : -90 < lat) (h2 : lat < 90) (h3 : -180 ≤ lon) (h4 : lon ≤ 180)
    (h5 : 0 ≤ brg) (h6 : brg < 360) (h7 : 0 < d) (h8 : d < 6371 * Real.pi) :
    |calculateBearing lat lon (calculateTargetCoordinate lat lon brg d).lat
      (calculateTargetCoordinate lat lon brg d).lon - brg| ≤ 1/1000000 := by
  have hπ : (0:ℝ) < Real.pi := Real.pi_pos
  have hR : EARTH_RADIUS_KM = 6371 := by rw [EARTH_RADIUS_KM]; norm_num
  have hδ0 : 0 < d / EARTH_RADIUS_KM := by rw [hR]; positivity
  have hδπ : d / EARTH_RADIUS_KM < Real.pi := by
    rw [hR, div_lt_iff₀ (by norm_num : (0:ℝ) < 6371)]
    linarith
  have hsδ : 0 < Real.sin (d / EARTH_RADIUS_KM) :=
    Real.sin_pos_of_pos_of_lt_pi hδ0 hδπ
  have hc1pos : 0 < Real.cos (lat * DEG_TO_RAD) := by
    apply Real.cos_pos_of_mem_Ioo
    constructor
    · rw [DEG_TO_RAD]
      nlinarith
    · rw [DEG_TO_RAD]
      nlinarith
  have hSb := forward_S_bounds (lat * DEG_TO_RAD) (brg * DEG_TO_RAD) (d / EARTH_RADIUS_KM)
  obtain ⟨m, hm⟩ := target_lon_sub lat lon brg d
  rw [Real.sin_arcsin hSb.1 hSb.2] at hm
  have hcosA := forward_cosA (lat * DEG_TO_RAD) (brg * DEG_TO_RAD) (d / EARTH_RADIUS_KM)
    hc1pos.le
  have hsinA := forward_sinA (lat * DEG_TO_RAD) (brg * DEG_TO_RAD) (d / EARTH_RADIUS_KM)
    hc1pos.le
  simp only [calculateBearing]
  rw [target_lat_eq, hm]
  simp only [rad_deg_cancel]
  rw [Real.sin_add_int_mul_two_pi, Real.cos_add_int_mul_two_pi]
  rw [Real.sin_arcsin hSb.1 hSb.2, Real.cos_arcsin]
  set S := Real.sin (lat * DEG_TO_RAD) * Real.cos (d / EARTH_RADIUS_KM) +
    Real.cos (lat * DEG_TO_RAD) * Real.sin (d / EARTH_RADIUS_KM) *
    Real.cos (brg * DEG_TO_RAD) with hSdef
  set A := atan2
    (Real.sin (brg * DEG_TO_RAD) * Real.sin (d / EARTH_RADIUS_KM) * Real.cos (lat * DEG_TO_RAD))
    (Real.cos (d / EARTH_RADIUS_KM) - Real.sin (lat * DEG_TO_RAD) * S) with hAdef
  have hy : Real.sin A * Real.sqrt (1 - S ^ 2) =
      Real.sin (brg * DEG_TO_RAD) * Real.sin (d / EARTH_RADIUS_KM) := by
    apply mul_left_cancel₀ (ne_of_gt hc1pos)
    linear_combination hsinA
  have hx : Real.cos (lat * DEG_TO_RAD) * S -
      Real.sin (lat * DEG_TO_RAD) * Real.sqrt (1 - S ^ 2) * Real.cos A =
      Real.sin (d / EARTH_RADIUS_KM) * Real.cos (brg * DEG_TO_RAD) := by
    apply mul_left_cancel₀ (ne_of_gt hc1pos)
    linear_combination (-Real.sin (lat * DEG_TO_RAD)) * hcosA +
      S * Real.sin_sq_add_cos_sq (lat * DEG_TO_RAD) + hSdef
  rw [hy, hx]
  clear_value S A
  clear hSdef hAdef hm hcosA hsinA hy hx hSb m S A
  have key : atan2
      (Real.sin (brg * DEG_TO_RAD) * Real.sin (d / EARTH_RADIUS_KM))
      (Real.sin (d / EARTH_RADIUS_KM) * Real.cos (brg * DEG_TO_RAD)) =
      Complex.arg ((Real.cos (brg * DEG_TO_RAD) : ℂ) +
        (Real.sin (brg * DEG_TO_RAD) : ℂ) * Complex.I) := by
    rw [atan2]
    rw [show ((Real.sin (d / EARTH_RADIUS_KM) * Real.cos (brg * DEG_TO_RAD) : ℝ) : ℂ) +
        ((Real.sin (brg * DEG_TO_RAD) * Real.sin (d / EARTH_RADIUS_KM) : ℝ) : ℂ) * Complex.I =
        ((Real.sin (d / EARTH_RADIUS_KM) : ℝ) : ℂ) *
          (((Real.cos (brg * DEG_TO_RAD) : ℝ) : ℂ) +
            ((Real.sin (brg * DEG_TO_RAD) : ℝ) : ℂ) * Complex.I) from by
      push_cast
      ring]
    exact Complex.arg_real_mul _ hsδ
  rw [key]
  rcases le_or_lt brg 180 with hb | hb
  · have hlow : -Real.pi < brg * DEG_TO_RAD := by
      rw [DEG_TO_RAD]
      nlinarith [mul_nonneg h5 (by positivity : (0:ℝ) ≤ Real.pi / 180)]
    have hhigh : brg * DEG_TO_RAD ≤ Real.pi := by
      rw [DEG_TO_RAD]
      nlinarith [mul_nonneg (by linarith : (0:ℝ) ≤ 180 - brg)
        (by positivity : (0:ℝ) ≤ Real.pi / 180)]
    rw [Complex.ofReal_cos, Complex.ofReal_sin]
    rw [Complex.arg_cos_add_sin_mul_I ⟨hlow, hhigh⟩]
    rw [deg_rad_cancel]
    rw [jsMod_eq_sub (brg + 360) 360 (by linarith) (by linarith) (by norm_num)]
    simp
  · rw [← Real.cos_sub_two_pi, ← Real.sin_sub_two_pi]
    have hlow : -Real.pi < brg * DEG_TO_RAD - 2 * Real.pi := by
      rw [DEG_TO_RAD]
      nlinarith [mul_pos (show (0:ℝ) < brg - 180 by linarith)
        (show (0:ℝ) < Real.pi / 180 by positivity)]
    have hhigh : brg * DEG_TO_RAD - 2 * Real.pi ≤ Real.pi := by
      rw [DEG_TO_RAD]
      nlinarith [mul_pos (show (0:ℝ) < 360 - brg by linarith)
        (show (0:ℝ) < Real.pi / 180 by positivity)]
    rw [Complex.ofReal_cos, Complex.ofReal_sin]
    rw [Complex.arg_cos_add_sin_mul_I ⟨hlow, hhigh⟩]
    rw [show (brg * DEG_TO_RAD - 2 * Real.pi) * RAD_TO_DEG + 360 = brg from by
      rw [DEG_TO_RAD, RAD_TO_DEG]
      field_simp
      ring]
    rw [jsMod_eq_self brg 360 (by linarith) (by linarith)]
    simp

/-- Witness for `calculateBearing_roundtrip` at the observer `(0, 0)`,
bearing `90`, distance `10 km`. -/
theorem calculateBearing_roundtrip_witness :
    |calculateBearing 0 0 (calculateTargetCoordinate 0 0 90 10).lat
      (calculateTargetCoordinate 0 0 90 10).lon - 90| ≤ 1/1000000 :=
  calculateBearing_roundtrip 0 0 90 10 (by norm_num) (by norm_num) (by norm_num)
    (by norm_num) (by norm_num) (by norm_num) (by norm_num)
    (by nlinarith [Real.pi_gt_three])

lemma atan2_zero_of_neg (x : ℝ) (hx : x < 0) : atan2 0 x = Real.pi := by
  rw [atan2]
  have h : ((0:ℝ) : ℂ) * Complex.I = 0 := by simp
  rw [h, add_zero]
  exact Complex.arg_ofReal_of_neg hx

/-- C3 counterexample: the claim quantifies over every `lat ∈ [-90, 90]`.
At the north pole (`lat = 90`) the forward solution collapses (the
longitude `atan2` sees `(0, 0)`), the target lands due south of the pole
on the observer's meridian, and the recomputed bearing is `180°` whatever
the input bearing; with input bearing `45°` the error is `135°`. -/
theorem calculateBearing_roundtrip_fails_at_pole :
    ¬ |calculateBearing 90 0 (calculateTargetCoordinate 90 0 45 1).lat
        (calculateTargetCoordinate 90 0 45 1).lon - 45| ≤ 1/1000000 := by
  have hπ : (0:ℝ) < Real.pi := Real.pi_pos
  have h90 : (90:ℝ) * DEG_TO_RAD = Real.pi / 2 := by
    rw [DEG_TO_RAD]
    ring
  have hδpos : (0:ℝ) < 1 / EARTH_RADIUS_KM := by rw [EARTH_RADIUS_KM]; norm_num
  have hδsmall : 1 / EARTH_RADIUS_KM ≤ Real.pi / 2 := by
    rw [EARTH_RADIUS_KM]
    nlinarith [Real.pi_gt_three]
  have hδπ : 1 / EARTH_RADIUS_KM < Real.pi := by linarith
  have hsδ : 0 < Real.sin (1 / EARTH_RADIUS_KM) :=
    Real.sin_pos_of_pos_of_lt_pi hδpos hδπ
  have harcsin : Real.arcsin (Real.cos (1 / EARTH_RADIUS_KM)) =
      Real.pi / 2 - 1 / EARTH_RADIUS_KM := by
    rw [← Real.sin_pi_div_two_sub]
    exact Real.arcsin_sin (by linarith) (by linarith)
  have htlat : (calculateTargetCoordinate 90 0 45 1).lat =
      (Real.pi / 2 - 1 / EARTH_RADIUS_KM) * RAD_TO_DEG := by
    rw [target_lat_eq, h90, Real.sin_pi_div_two, Real.cos_pi_div_two]
    simp only [one_mul, zero_mul, add_zero]
    rw [harcsin]
  have htlon : (calculateTargetCoordinate 90 0 45 1).lon = 0 := by
    rw [target_lon_eq, h90, Real.sin_pi_div_two, Real.cos_pi_div_two]
    simp only [one_mul, zero_mul, mul_zero, add_zero]
    rw [Real.sin_arcsin (Real.neg_one_le_cos _) (Real.cos_le_one _), sub_self]
    rw [show atan2 0 0 = 0 from by rw [atan2]; simp]
    simp only [zero_mul, zero_add, add_zero]
    rw [jsMod_eq_sub 540 360 (by norm_num) (by norm_num) (by norm_num)]
    norm_num
  rw [htlat, htlon]
  simp only [calculateBearing]
  rw [h90, Real.sin_pi_div_two, Real.cos_pi_div_two, rad_deg_cancel]
  simp only [sub_self, zero_mul, Real.sin_zero, Real.cos_zero, mul_one, one_mul, zero_sub]
  rw [Real.cos_pi_div_two_sub]
  rw [atan2_zero_of_neg _ (neg_lt_zero.mpr hsδ)]
  rw [show Real.pi * RAD_TO_DEG = 180 from by
    rw [RAD_TO_DEG]
    field_simp]
  rw [show (180:ℝ) + 360 = 540 from by norm_num]
  rw [jsMod_eq_sub 540 360 (by norm_num) (by norm_num) (by norm_num)]
  norm_num
